import Mathlib

/-!
Shallow embedding of the NEAR license contract in
`src/contracts/license/src/lib.rs` (crate `license` of VitalPointAI/Hopper).

The contract state is a `LookupMap<String, u64>` of license expiry
timestamps (nanoseconds) together with an admin `AccountId`.  We model the
map as an association list from `String` to `Nat`, u64 values being
naturals below `2 ^ 64`; u64 arithmetic wraps modulo `2 ^ 64` (the spec
states overflow is explicitly unguarded).  Identities (`AccountId` and
wallet-address strings) are modelled as `String`.  Panics (`require!`,
`expect`) are modelled with `Except String`: an `Except.error` aborts the
call with no state change (the platform applies effects all-or-nothing).
The environment inputs `env::predecessor_account_id()` and
`env::block_timestamp()` are passed as explicit arguments.
-/

/-- Modulus of Rust `u64` arithmetic. -/
def U64_MOD : Nat := 2 ^ 64

/-- Lookup in an association list, as `LookupMap::get` on the modelled
storage: the value stored under the first matching key, if any. -/
def lookupAssoc {α β : Type} [DecidableEq α] : List (α × β) → α → Option β
  | [], _ => none
  | (k, v) :: rest, key => if k = key then some v else lookupAssoc rest key

/-- Insert into an association list, as `LookupMap::insert`: replaces the
value under an existing key, otherwise appends a fresh entry. -/
def insertAssoc {α β : Type} [DecidableEq α] : List (α × β) → α → β → List (α × β)
  | [], key, v => [(key, v)]
  | (k, v0) :: rest, key, v =>
    if k = key then (k, v) :: rest else (k, v0) :: insertAssoc rest key v

/-- Contract state of `LicenseContract`: the `licenses` map
(wallet address to expiry timestamp in nanoseconds, a u64) and the
`admin` account. -/
structure LicenseContract where
  licenses : List (String × Nat)
  admin : String
deriving DecidableEq

/-- Constructor `LicenseContract::new`: empty licenses map, the given
admin. -/
def LicenseContract.new (admin : String) : LicenseContract :=
  { licenses := [], admin := admin }

/-- Method `LicenseContract::grant_license`.  Explicit arguments carry the
environment: `predecessor_account_id` is `env::predecessor_account_id()`
and `block_timestamp` is `env::block_timestamp()`. -/
def grant_license (st : LicenseContract) (predecessor_account_id : String)
    (block_timestamp : Nat) (wallet_address : String) (duration_days : Nat) :
    Except String LicenseContract :=
  if predecessor_account_id = st.admin then
    let current_timestamp := block_timestamp
    let base_timestamp :=
      (Option.filter (fun expiry => decide (expiry > current_timestamp))
        (lookupAssoc st.licenses wallet_address)).getD current_timestamp
    let duration_ns := duration_days * 24 * 60 * 60 * 1000000000 % U64_MOD
    let new_expiry := (base_timestamp + duration_ns) % U64_MOD
    Except.ok { st with licenses := insertAssoc st.licenses wallet_address new_expiry }
  else
    Except.error "Unauthorized: only admin can grant licenses"

/-- Method `LicenseContract::is_licensed`; `block_timestamp` carries
`env::block_timestamp()`. -/
def is_licensed (st : LicenseContract) (block_timestamp : Nat)
    (wallet_address : String) : Bool :=
  (Option.map (fun expiry => decide (expiry > block_timestamp))
    (lookupAssoc st.licenses wallet_address)).getD false

/-- Method `LicenseContract::get_expiry`. -/
def get_expiry (st : LicenseContract) (wallet_address : String) : Option Nat :=
  lookupAssoc st.licenses wallet_address

/-- States whose stored expiry values all fit in a u64, as every state of
the Rust contract does by typing. -/
def ValuesLT (st : LicenseContract) : Prop :=
  ∀ p ∈ st.licenses, p.2 < U64_MOD

instance (st : LicenseContract) : Decidable (ValuesLT st) := by
  unfold ValuesLT; infer_instance

/-- Base timestamp chosen by `grant_license`: the stored expiry when it is
still in the future, else the current timestamp. -/
def grantBase (st : LicenseContract) (wallet_address : String)
    (block_timestamp : Nat) : Nat :=
  match lookupAssoc st.licenses wallet_address with
  | some expiry => if expiry > block_timestamp then expiry else block_timestamp
  | none => block_timestamp

example : grant_license (LicenseContract.new "admin") "admin" 1000000000 "user" 30
    = Except.ok { licenses := [("user", 2592001000000000)], admin := "admin" } := by
  rfl

example : grant_license (LicenseContract.new "admin") "eve" 0 "user" 30
    = Except.error "Unauthorized: only admin can grant licenses" := by
  rfl

/-- Storage namespace (byte string `b"l"`) passed to `LookupMap::new` both
in `new` and in `migrate`. -/
def LICENSES_NS : List Nat := [108]

/-- Old persisted state `OldLicenseContract` (licenses keyed by
`AccountId`).  The `LookupMap` field is represented by its storage
namespace, which is what its borsh-persisted form records. -/
structure OldLicenseContract where
  licenses_ns : List Nat
  admin : String

/-- Persisted top-level state produced by `migrate`: the new
`LicenseContract` viewed at the storage level, i.e. the storage namespace
of its `String`-keyed licenses map plus the admin. -/
structure MigratedLicenseContract where
  licenses_ns : List Nat
  admin : String

/-- Method `LicenseContract::migrate`.  The argument carries the result of
`env::state_read()`; `expect` on a missing old state is the error case. -/
def migrate (state_read : Option OldLicenseContract) :
    Except String MigratedLicenseContract :=
  match state_read with
  | some old_state => Except.ok { licenses_ns := LICENSES_NS, admin := old_state.admin }
  | none => Except.error "Failed to read old state"

/-- Little-endian 4-byte encoding of a u32 length, as borsh writes it. -/
def u32leBytes (n : Nat) : List Nat :=
  [n % 256, n / 256 % 256, n / 65536 % 256, n / 16777216 % 256]

/-- Modelled from the spec: borsh serialization of a `String` map key (the
platform serialization `LookupMap` appends to its namespace; near-sdk code,
not part of this repository): little-endian u32 byte length followed by
the UTF-8 bytes. -/
def borshStringKey (s : String) : List Nat :=
  u32leBytes s.utf8ByteSize ++ s.toUTF8.toList.map (fun b => b.toNat)

/-- Modelled from the spec: borsh serialization of an `AccountId` map key
is the serialization of its underlying string (the source comment: String
serialization of valid AccountIds is compatible). -/
def borshAccountIdKey (a : String) : List Nat :=
  borshStringKey a

/-- Raw storage key at which a `LookupMap` with the given namespace stores
the entry whose key has the given serialization. -/
def mapRawKey (map_ns : List Nat) (ser_key : List Nat) : List Nat :=
  map_ns ++ ser_key

/-- Point read of the platform key-value storage (byte key to u64 value). -/
def storage_read (storage : List (List Nat × Nat)) (raw_key : List Nat) :
    Option Nat :=
  lookupAssoc storage raw_key

/-- States reachable from a fresh deployment `new admin` by any sequence
of successful `grant_license` calls, together with the list of wallet
addresses targeted by those calls.  Failed grants and the two queries do
not change the state. -/
inductive ReachableFrom (admin : String) : LicenseContract → List String → Prop where
  | base : ReachableFrom admin (LicenseContract.new admin) []
  | step {st : LicenseContract} {granted : List String} {caller : String}
      {t : Nat} {w : String} {d : Nat} {st' : LicenseContract} :
      ReachableFrom admin st granted →
      grant_license st caller t w d = Except.ok st' →
      ReachableFrom admin st' (w :: granted)

theorem lookupAssoc_insertAssoc_self {α β : Type} [DecidableEq α]
    (l : List (α × β)) (k : α) (v : β) :
    lookupAssoc (insertAssoc l k v) k = some v := by
  induction l with
  | nil => simp [insertAssoc, lookupAssoc]
  | cons p rest ih =>
    obtain ⟨k0, v0⟩ := p
    by_cases h : k0 = k
    · simp [insertAssoc, lookupAssoc, h]
    · simp [insertAssoc, lookupAssoc, h, ih]

theorem lookupAssoc_insertAssoc_ne {α β : Type} [DecidableEq α]
    (l : List (α × β)) (k k' : α) (v : β) (h : k' ≠ k) :
    lookupAssoc (insertAssoc l k v) k' = lookupAssoc l k' := by
  induction l with
  | nil => simp [insertAssoc, lookupAssoc, Ne.symm h]
  | cons p rest ih =>
    obtain ⟨k0, v0⟩ := p
    simp only [insertAssoc]
    by_cases h0 : k0 = k
    · subst h0
      simp [lookupAssoc, Ne.symm h]
    · simp [lookupAssoc, h0, ih]

theorem grant_license_eq_ok_iff (st : LicenseContract) (caller : String)
    (t : Nat) (w : String) (d : Nat) (st' : LicenseContract) :
    grant_license st caller t w d = Except.ok st' ↔
      caller = st.admin ∧
        st' = { st with licenses := insertAssoc st.licenses w ((grantBase st w t + d * 86400000000000) % U64_MOD) } := by
  have hM : U64_MOD = 18446744073709551616 := by norm_num [U64_MOD]
  have harith : ∀ b : Nat,
      (b + d * 24 * 60 * 60 * 1000000000 % U64_MOD) % U64_MOD
        = (b + d * 86400000000000) % U64_MOD := by
    intro b
    have hd : d * 24 * 60 * 60 * 1000000000 = d * 86400000000000 := by ring
    rw [hd, hM]
    omega
  constructor
  · intro h
    by_cases hc : caller = st.admin
    · refine ⟨hc, ?_⟩
      rw [grant_license, if_pos hc] at h
      simp only [Except.ok.injEq] at h
      rw [← h]
      unfold grantBase
      cases hl : lookupAssoc st.licenses w with
      | none => simp [hl, harith]
      | some e =>
        by_cases he : e > t
        · simp [hl, he, Option.filter, harith]
        · simp [hl, he, Option.filter, harith]
    · rw [grant_license, if_neg hc] at h
      exact absurd h (by simp)
  · rintro ⟨hc, rfl⟩
    rw [grant_license, if_pos hc]
    simp only [Except.ok.injEq]
    unfold grantBase
    cases hl : lookupAssoc st.licenses w with
    | none => simp [hl, harith]
    | some e =>
      by_cases he : e > t
      · simp [hl, he, Option.filter, harith]
      · simp [hl, he, Option.filter, harith]

theorem grant_license_eq_error_iff (st : LicenseContract) (caller : String)
    (t : Nat) (w : String) (d : Nat) :
    (∃ msg, grant_license st caller t w d = Except.error msg) ↔ caller ≠ st.admin := by
  by_cases hc : caller = st.admin
  · rw [grant_license, if_pos hc]
    simp [hc]
  · rw [grant_license, if_neg hc]
    simp [hc]

theorem lookupAssoc_eq_none_of_not_granted {admin : String}
    {st : LicenseContract} {granted : List String}
    (hreach : ReachableFrom admin st granted) (w : String) (hw : w ∉ granted) :
    lookupAssoc st.licenses w = none := by
  induction hreach with
  | base => rfl
  | step hr hok ih =>
    rename_i st0 granted0 caller0 t0 w0 d0 st0'
    rw [grant_license_eq_ok_iff] at hok
    obtain ⟨-, rfl⟩ := hok
    have hne : w ≠ w0 := fun e => hw (e ▸ List.mem_cons_self w0 granted0)
    have hmem : w ∉ granted0 := fun e => hw (List.mem_cons_of_mem w0 e)
    simpa [lookupAssoc_insertAssoc_ne _ _ _ _ hne] using ih hmem

/-! Claim theorems. -/

/-- C1 (amended): for every state, an admin-called grant at current time
`t` stores `(base + duration_days * 86_400 * 1_000_000_000) % 2 ^ 64`
under the target, where `base` is the stored expiry when still in the
future and `t` otherwise; whenever that sum does not overflow a u64 the
stored value is exactly `base + duration_days * 86_400 * 1_000_000_000`. -/
theorem grant_license_expiry_formula (st : LicenseContract) (caller : String)
    (t : Nat) (w : String) (d : Nat) (hc : caller = st.admin) :
    ∃ st', grant_license st caller t w d = Except.ok st'
      ∧ get_expiry st' w = some ((grantBase st w t + d * 86400 * 1000000000) % U64_MOD)
      ∧ (grantBase st w t + d * 86400 * 1000000000 < U64_MOD →
          get_expiry st' w = some (grantBase st w t + d * 86400 * 1000000000)) := by
  have hd : d * 86400 * 1000000000 = d * 86400000000000 := by ring
  refine ⟨{ st with licenses := insertAssoc st.licenses w ((grantBase st w t + d * 86400000000000) % U64_MOD) },
    (grant_license_eq_ok_iff st caller t w d _).mpr ⟨hc, rfl⟩, ?_, ?_⟩
  · rw [hd]
    exact lookupAssoc_insertAssoc_self _ _ _
  · intro hnof
    rw [hd] at hnof ⊢
    unfold get_expiry
    rw [lookupAssoc_insertAssoc_self, Nat.mod_eq_of_lt hnof]

/-- C1 witness: a concrete admin grant on a fresh state at time 5 for one
day stores exactly 5 + 86_400_000_000_000. -/
theorem grant_license_expiry_formula_witness :
    "a" = (LicenseContract.new "a").admin
    ∧ ∃ st', grant_license (LicenseContract.new "a") "a" 5 "u" 1 = Except.ok st'
      ∧ get_expiry st' "u" = some ((grantBase (LicenseContract.new "a") "u" 5 + 1 * 86400 * 1000000000) % U64_MOD) :=
  ⟨rfl, by
    obtain ⟨st', h1, h2, -⟩ := grant_license_expiry_formula (LicenseContract.new "a") "a" 5 "u" 1 rfl
    exact ⟨st', h1, h2⟩⟩

/-- C1 counterexample: at duration 213_504 days the u64 product/sum wraps,
so the stored value differs from the exact sum `base + d * 86_400 * 10 ^ 9`
(here base = 0). -/
theorem grant_license_exact_sum_cex :
    grant_license (LicenseContract.new "a") "a" 0 "u" 213504
      = Except.ok { licenses := [("u", 1526290448384)], admin := "a" }
    ∧ (1526290448384 : Nat) ≠ 0 + 213504 * 86400 * 1000000000 := by
  exact ⟨rfl, by decide⟩

/-- C2: a grant by any caller other than the stored admin fails with the
Unauthorized error (so, the call aborting, the state is unchanged), and a
grant by the admin succeeds. -/
theorem grant_license_auth (st : LicenseContract) (caller : String)
    (t : Nat) (w : String) (d : Nat) :
    (caller ≠ st.admin →
      grant_license st caller t w d = Except.error "Unauthorized: only admin can grant licenses")
    ∧ (caller = st.admin → ∃ st', grant_license st caller t w d = Except.ok st') := by
  constructor
  · intro hne
    rw [grant_license, if_neg hne]
  · intro hc
    exact ⟨_, (grant_license_eq_ok_iff st caller t w d _).mpr ⟨hc, rfl⟩⟩

/-- C2 witness: concrete unauthorized caller and concrete admin caller. -/
theorem grant_license_auth_witness :
    grant_license (LicenseContract.new "admin") "eve" 0 "u" 3
      = Except.error "Unauthorized: only admin can grant licenses"
    ∧ ∃ st', grant_license (LicenseContract.new "admin") "admin" 0 "u" 3 = Except.ok st' :=
  ⟨(grant_license_auth (LicenseContract.new "admin") "eve" 0 "u" 3).1 (by decide),
    (grant_license_auth (LicenseContract.new "admin") "admin" 0 "u" 3).2 rfl⟩

/-- C3 (amended): a successful grant whose base-plus-duration sum does not
overflow a u64 never decreases any stored expiry, and never deletes an
entry; this holds for every state, in particular every reachable one, and
for every current time. -/
theorem grant_license_monotone (st : LicenseContract) (caller : String)
    (t : Nat) (w : String) (d : Nat) (st' : LicenseContract)
    (hok : grant_license st caller t w d = Except.ok st')
    (hnof : grantBase st w t + d * 86400000000000 < U64_MOD) :
    ∀ w' e, lookupAssoc st.licenses w' = some e →
      ∃ e', lookupAssoc st'.licenses w' = some e' ∧ e ≤ e' := by
  rw [grant_license_eq_ok_iff] at hok
  obtain ⟨-, rfl⟩ := hok
  intro w' e he
  by_cases hw : w' = w
  · subst hw
    have hb : e ≤ grantBase st w' t := by
      unfold grantBase
      rw [he]
      dsimp only
      split <;> omega
    refine ⟨_, lookupAssoc_insertAssoc_self _ _ _, ?_⟩
    rw [Nat.mod_eq_of_lt hnof]
    omega
  · exact ⟨e, by rwa [lookupAssoc_insertAssoc_ne _ _ _ _ hw], le_refl e⟩

/-- C3 witness: extending an expired one-entry state from time 20 keeps
the entry and does not decrease it. -/
theorem grant_license_monotone_witness :
    grant_license { licenses := [("u", 10)], admin := "a" } "a" 20 "u" 1
      = Except.ok { licenses := [("u", 86400000000020)], admin := "a" }
    ∧ ∃ e', lookupAssoc ({ licenses := [("u", 86400000000020)], admin := "a" : LicenseContract }).licenses "u" = some e'
        ∧ 10 ≤ e' := by
  have hok : grant_license { licenses := [("u", 10)], admin := "a" } "a" 20 "u" 1
      = Except.ok { licenses := [("u", 86400000000020)], admin := "a" } := by rfl
  refine ⟨hok, ?_⟩
  exact grant_license_monotone { licenses := [("u", 10)], admin := "a" } "a" 20 "u" 1
    { licenses := [("u", 86400000000020)], admin := "a" } hok (by decide) "u" 10 rfl

/-- C3 counterexample: in a state reachable by two admin grants of
213_503 days each, both at time 0 (non-decreasing times), the second
grant wraps modulo 2 ^ 64 and strictly decreases the stored expiry. -/
theorem grant_license_monotone_cex :
    grant_license (LicenseContract.new "a") "a" 0 "u" 213503
      = Except.ok { licenses := [("u", 18446659200000000000)], admin := "a" }
    ∧ grant_license { licenses := [("u", 18446659200000000000)], admin := "a" } "a" 0 "u" 213503
      = Except.ok { licenses := [("u", 18446574326290448384)], admin := "a" }
    ∧ (18446574326290448384 : Nat) < 18446659200000000000 := by
  exact ⟨rfl, rfl, by decide⟩

/-- C4: `is_licensed` is a pure function of the state and the current
time: it is true iff an entry exists whose stored expiry is strictly
greater than the current time; in particular it is false when the current
time equals the stored expiry. -/
theorem is_licensed_spec (st : LicenseContract) (t : Nat) (w : String) :
    (is_licensed st t w = true ↔ ∃ e, lookupAssoc st.licenses w = some e ∧ t < e)
    ∧ (∀ e, lookupAssoc st.licenses w = some e → is_licensed st e w = false) := by
  constructor
  · cases hl : lookupAssoc st.licenses w with
    | none => simp [is_licensed, hl]
    | some e => simp [is_licensed, hl]
  · intro e he
    simp [is_licensed, he]

/-- C4 witness: on a state holding expiry 5 for `u`, the query is false at
time 5 (the boundary) and true at time 3. -/
theorem is_licensed_spec_witness :
    is_licensed { licenses := [("u", 5)], admin := "a" } 5 "u" = false
    ∧ is_licensed { licenses := [("u", 5)], admin := "a" } 3 "u" = true :=
  ⟨(is_licensed_spec { licenses := [("u", 5)], admin := "a" } 5 "u").2 5 rfl,
    (is_licensed_spec { licenses := [("u", 5)], admin := "a" } 3 "u").1.mpr ⟨5, rfl, by decide⟩⟩

/-- C5: `get_expiry` is a pure read returning the raw stored expiry (even
a past one) when an entry exists and none when no entry exists; on any
reachable state, an identity never targeted by a successful grant has no
entry, so `get_expiry` is absent and `is_licensed` is false at every
time. -/
theorem get_expiry_spec (admin : String) (st : LicenseContract)
    (granted : List String) (w : String)
    (hreach : ReachableFrom admin st granted) :
    (∀ e, lookupAssoc st.licenses w = some e → get_expiry st w = some e)
    ∧ (lookupAssoc st.licenses w = none → get_expiry st w = none)
    ∧ (w ∉ granted →
        get_expiry st w = none ∧ ∀ t, is_licensed st t w = false) := by
  refine ⟨fun e he => he, fun hn => hn, fun hw => ?_⟩
  have hn : lookupAssoc st.licenses w = none :=
    lookupAssoc_eq_none_of_not_granted hreach w hw
  exact ⟨hn, fun t => by simp [is_licensed, hn]⟩

/-- C5 witness: on the fresh state, the never-granted identity `u` has no
expiry and is not licensed at time 7. -/
theorem get_expiry_spec_witness :
    get_expiry (LicenseContract.new "a") "u" = none
    ∧ is_licensed (LicenseContract.new "a") 7 "u" = false := by
  have h := get_expiry_spec "a" (LicenseContract.new "a") [] "u" ReachableFrom.base
  have h2 := h.2.2 (by decide)
  exact ⟨h2.1, h2.2 7⟩

/-- C6 (amended): an admin grant to an identity with no prior entry at
time `t0` stores exactly `t0 + duration_days * 86_400_000_000_000`
provided that sum fits in a u64, and then `is_licensed` at `t0` is true
exactly when the duration is positive. -/
theorem grant_fresh_spec (st : LicenseContract) (caller : String) (t0 : Nat)
    (w : String) (d : Nat) (hnone : lookupAssoc st.licenses w = none)
    (hc : caller = st.admin) (hnof : t0 + d * 86400000000000 < U64_MOD) :
    ∃ st', grant_license st caller t0 w d = Except.ok st'
      ∧ get_expiry st' w = some (t0 + d * 86400000000000)
      ∧ is_licensed st' t0 w = decide (0 < d) := by
  have hbase : grantBase st w t0 = t0 := by
    unfold grantBase
    rw [hnone]
  refine ⟨{ st with licenses := insertAssoc st.licenses w ((grantBase st w t0 + d * 86400000000000) % U64_MOD) },
    (grant_license_eq_ok_iff st caller t0 w d _).mpr ⟨hc, rfl⟩, ?_, ?_⟩
  · unfold get_expiry
    rw [lookupAssoc_insertAssoc_self, hbase, Nat.mod_eq_of_lt (hbase ▸ hnof)]
  · unfold is_licensed
    rw [lookupAssoc_insertAssoc_self, hbase, Nat.mod_eq_of_lt (hbase ▸ hnof)]
    have hred : (Option.map (fun expiry => decide (expiry > t0)) (some (t0 + d * 86400000000000))).getD false
        = decide (t0 + d * 86400000000000 > t0) := rfl
    rw [hred]
    exact decide_eq_decide.mpr (by constructor <;> intro h <;> omega)

/-- C6 witness: fresh grant of one day at time 5 stores
5 + 86_400_000_000_000 and is licensed at time 5. -/
theorem grant_fresh_spec_witness :
    ∃ st', grant_license (LicenseContract.new "a") "a" 5 "u" 1 = Except.ok st'
      ∧ get_expiry st' "u" = some (5 + 1 * 86400000000000)
      ∧ is_licensed st' 5 "u" = decide (0 < 1) :=
  grant_fresh_spec (LicenseContract.new "a") "a" 5 "u" 1 rfl rfl (by decide)

/-- C6 counterexample: at duration 213_504 days from time 7 with no prior
entry, the stored expiry wraps modulo 2 ^ 64 and is not
`t0 + duration_days * 86_400_000_000_000`. -/
theorem grant_fresh_cex :
    grant_license (LicenseContract.new "a") "a" 7 "u" 213504
      = Except.ok { licenses := [("u", 1526290448391)], admin := "a" }
    ∧ (1526290448391 : Nat) ≠ 7 + 213504 * 86400000000000 := by
  exact ⟨rfl, by decide⟩

/-- C7 (amended): in the concrete scenario (admin `admin`, time
1_000_000_000 ns, grant of 30 days to `user`), the stored expiry is
2_592_001_000_000_000 and `is_licensed` at time 1_000_000_000 is true. -/
theorem concrete_scenario_amended :
    grant_license (LicenseContract.new "admin") "admin" 1000000000 "user" 30
      = Except.ok { licenses := [("user", 2592001000000000)], admin := "admin" }
    ∧ get_expiry { licenses := [("user", 2592001000000000)], admin := "admin" : LicenseContract } "user"
      = some 2592001000000000
    ∧ is_licensed { licenses := [("user", 2592001000000000)], admin := "admin" : LicenseContract } 1000000000 "user"
      = true := by
  exact ⟨rfl, rfl, rfl⟩

/-- C7 counterexample: the scenario's stored expiry is
2_592_001_000_000_000, not the claimed 2_593_000_000_000_000 (the claim's
total adds 10 ^ 12 instead of the 10 ^ 9 current time). -/
theorem concrete_scenario_cex :
    grant_license (LicenseContract.new "admin") "admin" 1000000000 "user" 30
      = Except.ok { licenses := [("user", 2592001000000000)], admin := "admin" }
    ∧ get_expiry { licenses := [("user", 2592001000000000)], admin := "admin" : LicenseContract } "user"
      ≠ some 2593000000000000 := by
  exact ⟨rfl, by decide⟩

/-- C8: `migrate` succeeds on any readable old state, keeping the old
admin and creating the licenses map under the same storage namespace
`b"l"`, so any storage entry written for an `AccountId` key is read back
unchanged through the new `String`-keyed map at the same raw storage key;
`migrate` aborts when the old persisted state cannot be read. -/
theorem migrate_spec :
    (∀ old_state : OldLicenseContract,
      migrate (some old_state) = Except.ok { licenses_ns := LICENSES_NS, admin := old_state.admin })
    ∧ migrate none = Except.error "Failed to read old state"
    ∧ (∀ old_state : OldLicenseContract, old_state.licenses_ns = LICENSES_NS →
        ∀ storage k, storage_read storage (mapRawKey LICENSES_NS (borshStringKey k))
          = storage_read storage (mapRawKey old_state.licenses_ns (borshAccountIdKey k))) := by
  refine ⟨fun _ => rfl, rfl, fun old_state h storage k => ?_⟩
  rw [h]
  rfl

/-- C8 witness: a concrete old state migrates keeping admin `adm`, and a
concrete storage entry written under the old map's raw key for `a` is
found through the new map. -/
theorem migrate_spec_witness :
    migrate (some { licenses_ns := LICENSES_NS, admin := "adm" })
      = Except.ok { licenses_ns := LICENSES_NS, admin := "adm" }
    ∧ storage_read [([108, 1, 0, 0, 0, 97], 42)] (mapRawKey LICENSES_NS (borshStringKey "a"))
      = storage_read [([108, 1, 0, 0, 0, 97], 42)]
          (mapRawKey (OldLicenseContract.licenses_ns { licenses_ns := LICENSES_NS, admin := "adm" }) (borshAccountIdKey "a")) :=
  ⟨migrate_spec.1 { licenses_ns := LICENSES_NS, admin := "adm" },
    migrate_spec.2.2 { licenses_ns := LICENSES_NS, admin := "adm" } rfl
      [([108, 1, 0, 0, 0, 97], 42)] "a"⟩

/-- C9: a successful grant leaves the admin unchanged and leaves the
entry of every identity other than the target unchanged (the two queries
are pure and a failed grant aborts without effects, so no other operation
writes the admin or the map). -/
theorem grant_license_frame (st : LicenseContract) (caller : String)
    (t : Nat) (w : String) (d : Nat) (st' : LicenseContract)
    (hok : grant_license st caller t w d = Except.ok st') :
    st'.admin = st.admin
    ∧ ∀ w', w' ≠ w → lookupAssoc st'.licenses w' = lookupAssoc st.licenses w' := by
  rw [grant_license_eq_ok_iff] at hok
  obtain ⟨-, rfl⟩ := hok
  exact ⟨rfl, fun w' hw => lookupAssoc_insertAssoc_ne _ _ _ _ hw⟩

/-- C9 witness: granting to `u` keeps admin `a` and the entry of `x`. -/
theorem grant_license_frame_witness :
    ({ licenses := [("x", 9), ("u", 86400000000000)], admin := "a" } : LicenseContract).admin
      = ({ licenses := [("x", 9)], admin := "a" } : LicenseContract).admin
    ∧ lookupAssoc ({ licenses := [("x", 9), ("u", 86400000000000)], admin := "a" } : LicenseContract).licenses "x"
      = lookupAssoc ({ licenses := [("x", 9)], admin := "a" } : LicenseContract).licenses "x" := by
  have h := grant_license_frame { licenses := [("x", 9)], admin := "a" } "a" 0 "u" 1
    { licenses := [("x", 9), ("u", 86400000000000)], admin := "a" } (by rfl)
  exact ⟨h.1, h.2 "x" (by decide)⟩

/-- C10: an admin grant of 0 days succeeds; it keeps a still-active
stored expiry unchanged, resets an expired one to the current time, and
on an absent entry writes the current time, turning `get_expiry` from
absent to present while `is_licensed` at the current time stays false. -/
theorem grant_zero_days (st : LicenseContract) (caller : String) (t : Nat)
    (w : String) (hc : caller = st.admin)
    (hval : ∀ e, lookupAssoc st.licenses w = some e → e < U64_MOD)
    (ht : t < U64_MOD) :
    ∃ st', grant_license st caller t w 0 = Except.ok st'
      ∧ (∀ e, lookupAssoc st.licenses w = some e → t < e →
          lookupAssoc st'.licenses w = some e)
      ∧ (∀ e, lookupAssoc st.licenses w = some e → e ≤ t →
          lookupAssoc st'.licenses w = some t)
      ∧ (lookupAssoc st.licenses w = none →
          get_expiry st w = none ∧ lookupAssoc st'.licenses w = some t
            ∧ is_licensed st' t w = false) := by
  refine ⟨{ st with licenses := insertAssoc st.licenses w ((grantBase st w t + 0 * 86400000000000) % U64_MOD) },
    (grant_license_eq_ok_iff st caller t w 0 _).mpr ⟨hc, rfl⟩, ?_, ?_, ?_⟩
  · intro e he hlt
    have hbase : grantBase st w t = e := by
      unfold grantBase
      rw [he]
      simp [hlt]
    rw [hbase]
    have : (e + 0 * 86400000000000) % U64_MOD = e := by
      rw [Nat.zero_mul, Nat.add_zero, Nat.mod_eq_of_lt (hval e he)]
    rw [this]
    exact lookupAssoc_insertAssoc_self _ _ _
  · intro e he hle
    have hbase : grantBase st w t = t := by
      unfold grantBase
      rw [he]
      simp only
      rw [if_neg (by omega)]
    rw [hbase]
    have : (t + 0 * 86400000000000) % U64_MOD = t := by
      rw [Nat.zero_mul, Nat.add_zero, Nat.mod_eq_of_lt ht]
    rw [this]
    exact lookupAssoc_insertAssoc_self _ _ _
  · intro hnone
    have hbase : grantBase st w t = t := by
      unfold grantBase
      rw [hnone]
    have hmod : (grantBase st w t + 0 * 86400000000000) % U64_MOD = t := by
      rw [hbase, Nat.zero_mul, Nat.add_zero, Nat.mod_eq_of_lt ht]
    refine ⟨hnone, ?_, ?_⟩
    · rw [hmod]
      exact lookupAssoc_insertAssoc_self _ _ _
    · unfold is_licensed
      rw [lookupAssoc_insertAssoc_self, hmod]
      simp

/-- C10 witness: a 0-day grant at time 5 to the fresh identity `u`
creates the entry with expiry 5, not licensed at time 5. -/
theorem grant_zero_days_witness :
    ∃ st', grant_license (LicenseContract.new "a") "a" 5 "u" 0 = Except.ok st'
      ∧ (lookupAssoc (LicenseContract.new "a").licenses "u" = none →
          get_expiry (LicenseContract.new "a") "u" = none
            ∧ lookupAssoc st'.licenses "u" = some 5 ∧ is_licensed st' 5 "u" = false) := by
  obtain ⟨st', h1, -, -, h4⟩ := grant_zero_days (LicenseContract.new "a") "a" 5 "u" rfl
    (by intro e he; simp [LicenseContract.new, lookupAssoc] at he) (by decide)
  exact ⟨st', h1, fun _ => h4 rfl⟩
